import Mathlib

/-!
Verification development for the state-governed sales pipeline of
`agent-v2` (`src/core/graph.py`, `src/schemas/vendor_state.py`,
`src/agents/observer.py`, `src/agents/refiner.py`,
`src/core/tool_router.py`, `src/tools/custom_tool.py`).

Python values that matter to control flow are embedded directly:
machine floats for `confianza` / `total_calculado` become `ℚ` (only
order comparisons with constants occur, which ℚ models exactly),
`dict`s become association lists, optional values become `Option`,
and truthiness tests (`if not x:` on strings/lists) are spelled out.
Exceptions of the translated code become explicit outcome values.
Timestamps (`datetime.now().isoformat()`) are passed in as abstract
strings.
-/

namespace AgentV2

/-- Enum `EtapaComercial` from `schemas/vendor_state.py`. -/
inductive EtapaComercial where
  | nuevo | explorando | interesado | cotizando | negociando
  | confirmando | pagando | completado | abandonado
deriving DecidableEq, Repr

/-- Enum `IntencionCliente` from `schemas/vendor_state.py`. -/
inductive IntencionCliente where
  | saludo | consulta_producto | consulta_precio | consulta_disponibilidad
  | intencion_compra | confirmacion_compra | objecion | queja | soporte
  | despedida | otro
deriving DecidableEq, Repr

/-- Model `ProductoDetectado` from `schemas/vendor_state.py`. -/
structure ProductoDetectado where
  product_id : String
  nombre : String
  cantidad : Int := 1
  precio_unitario : Option ℚ := none
  confirmado : Bool := false
deriving DecidableEq, Repr

/-- Model `EstadoError` from `schemas/vendor_state.py`. -/
structure EstadoError where
  codigo : String
  mensaje : String
  campo_afectado : Option String := none
  recoverable : Bool := true
deriving DecidableEq, Repr

/-- A generic embedded Python value, as appears in `Dict[str, Any]`
parameter mappings handed to tools and to template interpolation. -/
inductive PyVal where
  | vNone
  | vStr (s : String)
  | vInt (n : Int)
  | vBool (b : Bool)
deriving DecidableEq, Repr

/-- Python `str(value)` on an embedded value. -/
def PyVal.toPyStr : PyVal → String
  | .vNone => "None"
  | .vStr s => s
  | .vInt n => toString n
  | .vBool b => if b then "True" else "False"

/-- Parameter mappings (`Dict[str, Any]`) as association lists. -/
abbrev Params := List (String × PyVal)

/-- Python truthiness of an `Optional[str]`: `None` and `""` are falsy. -/
def strTruthy : Option String → Bool
  | none => false
  | some s => decide (s ≠ "")

/-- Python truthiness of an `Optional[float]`: `None` and `0.0` are falsy. -/
def ratTruthy : Option ℚ → Bool
  | none => false
  | some t => decide (t ≠ 0)

/-- Model `CommercialState` from `schemas/vendor_state.py`
(field-for-field, with pydantic defaults). -/
structure CommercialState where
  etapa_comercial : EtapaComercial := .nuevo
  intencion_actual : Option IntencionCliente := none
  productos_detectados : List ProductoDetectado := []
  productos_confirmados : List ProductoDetectado := []
  cantidades : List (String × Int) := []
  total_calculado : Option ℚ := none
  metodo_pago : Option String := none
  orden_generada : Option String := none
  payment_link : Option String := none
  reglas_activas : List String := []
  reglas_pendientes : List String := []
  errores_estado : List EstadoError := []
  warnings_estado : List String := []
  estado_valido : Bool := true
  puede_avanzar : Bool := true
  ultima_actualizacion : Option String := none
deriving DecidableEq, Repr

/-- Method `CommercialState.can_execute_tool` from `schemas/vendor_state.py`. -/
def CommercialState.can_execute_tool (s : CommercialState) (tool_name : String) :
    Bool × Option String :=
  if !s.estado_valido then
    (false, some "Estado inválido - no se pueden ejecutar herramientas")
  else if tool_name = "payment" then
    if s.productos_confirmados.isEmpty then
      (false, some "No hay productos confirmados para generar pago")
    else
      match s.total_calculado with
      | none => (false, some "Total no calculado o inválido")
      | some t =>
          if t ≤ 0 then (false, some "Total no calculado o inválido")
          else (true, none)
  else
    (true, none)

/-- Method `CommercialState.get_next_valid_actions` from `schemas/vendor_state.py`.
The `confirmando` branch tests `self.productos_confirmados and
self.total_calculado` (Python truthiness), the `cotizando` branch tests
`self.productos_detectados`. -/
def CommercialState.get_next_valid_actions (s : CommercialState) : List String :=
  let actions := ["respuesta"]
  match s.etapa_comercial with
  | .nuevo => actions ++ ["search_product", "search_knowledge"]
  | .explorando => actions ++ ["search_product", "search_knowledge", "media"]
  | .interesado => actions ++ ["search_product", "media", "crm"]
  | .cotizando =>
      if !s.productos_detectados.isEmpty then actions ++ ["media"] else actions
  | .confirmando =>
      if !s.productos_confirmados.isEmpty && ratTruthy s.total_calculado then
        actions ++ ["payment"]
      else actions
  | .pagando => actions ++ ["followup"]
  | _ => actions

/-- Model `VendorOutput` from `schemas/vendor_state.py`. -/
structure VendorOutput where
  intencion : IntencionCliente
  mensaje : String
  entidades_detectadas : List (String × PyVal) := []
  productos_mencionados : List String := []
  requiere_tool : Bool := false
  tool_sugerida : Option String := none
  tool_params_sugeridos : Option Params := none
  confianza : ℚ := mkRat 4 5
deriving DecidableEq, Repr

/-- Model `ObserverValidation` from `schemas/vendor_state.py`. -/
structure ObserverValidation where
  estado_valido : Bool
  errores : List String := []
  warnings : List String := []
  validaciones_pasadas : List String := []
  sugerencia_correccion : Option String := none
deriving DecidableEq, Repr

/-- The `vendor_action` dict built by `decide_action_node`
(mirrors the legacy `AgentAction` shape used there). -/
structure AgentAction where
  accion : String
  mensaje : String
  nombre_tool : Option String
  input_tool : Option Params
deriving DecidableEq, Repr

/-- The slice of the `decide_action_node` return value the claims are
about: `graph_decision` and `vendor_action`. -/
structure DecideResult where
  graph_decision : String
  vendor_action : Option AgentAction
deriving DecidableEq, Repr

/-- Python expression `vendor_output.tool_params_sugeridos or` empty dict. -/
def paramsOrEmpty : Option Params → Params
  | none => []
  | some ps => ps

/-- Respond-only result built by `decide_action_node` from a vendor output. -/
def respondWith (vo : VendorOutput) : DecideResult :=
  { graph_decision := "response_only",
    vendor_action := some
      { accion := "respuesta", mensaje := vo.mensaje,
        nombre_tool := none, input_tool := none } }

/-- Node `decide_action_node` from `core/graph.py` (lines 178-256), as a pure
function of the graph-state fields it reads: `state_valid`,
`vendor_output` (`none` models an empty/missing dict, which is falsy) and
`commercial_state`. -/
def decide_action_node (state_valid : Bool) (vendor_output : Option VendorOutput)
    (commercial_state : Option CommercialState) : DecideResult :=
  if !state_valid then
    { graph_decision := "response_only",
      vendor_action := some
        { accion := "respuesta",
          mensaje := (vendor_output.map VendorOutput.mensaje).getD "",
          nombre_tool := none, input_tool := none } }
  else
    match vendor_output with
    | none => { graph_decision := "response_only", vendor_action := none }
    | some vo =>
        if vo.requiere_tool && strTruthy vo.tool_sugerida then
          let tool_name := vo.tool_sugerida.getD ""
          match commercial_state with
          | some cs =>
              if !(cs.can_execute_tool tool_name).1 then
                respondWith vo
              else if tool_name ∉ cs.get_next_valid_actions ∧
                  tool_name ∉ ["search_product", "search_knowledge"] then
                respondWith vo
              else
                { graph_decision := "execute_tool",
                  vendor_action := some
                    { accion := "tool", mensaje := vo.mensaje,
                      nombre_tool := some tool_name,
                      input_tool := some (paramsOrEmpty vo.tool_params_sugeridos) } }
          | none =>
              { graph_decision := "execute_tool",
                vendor_action := some
                  { accion := "tool", mensaje := vo.mensaje,
                    nombre_tool := some tool_name,
                    input_tool := some (paramsOrEmpty vo.tool_params_sugeridos) } }
        else
          respondWith vo

/-- The f-string warning `f"Confianza muy baja ({confianza}), ..."` from
`observer.py`; Python float formatting is abstracted to `toString` of the
embedded rational (no claim depends on the rendered number). -/
def lowConfidenceWarning (c : ℚ) : String :=
  "Confianza muy baja (" ++ toString c ++ "), considerar pedir más información"

/-- Method `ObserverAgent._apply_hardcoded_rules` from `agents/observer.py`
(lines 193-221).  Mutation of the pydantic object is modelled by
returning the updated record. -/
def applyHardcodedRules (validation : ObserverValidation) (vendor_output : VendorOutput)
    (commercial_state : Option CommercialState) : ObserverValidation :=
  let v1 :=
    if vendor_output.tool_sugerida = some "payment" then
      let va :=
        if (match commercial_state with
            | some cs => cs.productos_confirmados.isEmpty
            | none => false) then
          { validation with
            estado_valido := false,
            errores := validation.errores ++
              ["REGLA: No se puede generar pago sin productos confirmados"] }
        else validation
      if vendor_output.intencion ≠ .confirmacion_compra then
        { va with warnings := va.warnings ++
            ["Sugiere payment pero la intención no es confirmacion_compra"] }
      else va
    else validation
  let v2 :=
    if vendor_output.confianza < mkRat 3 10 then
      { v1 with warnings := v1.warnings ++ [lowConfidenceWarning vendor_output.confianza] }
    else v1
  if vendor_output.requiere_tool && !strTruthy vendor_output.tool_sugerida then
    { v2 with warnings := v2.warnings ++ ["Indica requiere_tool=true pero no sugiere qué tool"] }
  else v2

/-- Outcome of the tier-1 (model-assisted) coherence check inside
`ObserverAgent.validate`: the LLM call returned parseable JSON
(`parsed`, carrying the fields `_parse_validation` extracts), returned
text that fails JSON parsing (`parseFail`, the `json.JSONDecodeError`
branch of `_parse_validation`), or the `self.llm.invoke` call raised
(`serviceError`, the outer `except` branch of `validate`). -/
inductive Tier1Outcome where
  | parsed (d : ObserverValidation)
  | parseFail
  | serviceError
deriving DecidableEq, Repr

/-- Method `ObserverAgent.validate` from `agents/observer.py` (lines 124-191) as a
function of the tier-1 outcome.  On `parsed`/`parseFail` the verdict from
`_parse_validation` flows through `_apply_hardcoded_rules`; on
`serviceError` the outer `except` returns the fail-open verdict directly,
bypassing `_apply_hardcoded_rules`. -/
def observerValidate (tier1 : Tier1Outcome) (vendor_output : VendorOutput)
    (commercial_state : Option CommercialState) : ObserverValidation :=
  match tier1 with
  | .parsed d => applyHardcodedRules d vendor_output commercial_state
  | .parseFail =>
      applyHardcodedRules
        { estado_valido := true,
          warnings := ["No se pudo parsear respuesta del validador"] }
        vendor_output commercial_state
  | .serviceError =>
      { estado_valido := true,
        warnings := ["No se pudo ejecutar validación completa"] }

/-- The `state_valid` graph field set by `state_validation_node`
(`core/graph.py` line 173): it is exactly `validation.estado_valido`. -/
def state_validation_result (validation : ObserverValidation) : Bool :=
  validation.estado_valido

/-- Mapping from the persisted stage string back to `EtapaComercial`
(the `EtapaComercial(...)` constructor guarded by the membership test in
`load_state_node`). -/
def parseEtapa (s : String) : Option EtapaComercial :=
  if s = "nuevo" then some .nuevo
  else if s = "explorando" then some .explorando
  else if s = "interesado" then some .interesado
  else if s = "cotizando" then some .cotizando
  else if s = "negociando" then some .negociando
  else if s = "confirmando" then some .confirmando
  else if s = "pagando" then some .pagando
  else if s = "completado" then some .completado
  else if s = "abandonado" then some .abandonado
  else none

/-- Node `load_state_node` from `core/graph.py` (lines 100-119): rebuilds the
commercial state from `lead_memory["current_stage"]`, with empty product
lists and the pydantic defaults for every other field.  `now` stands for
`datetime.now().isoformat()`. -/
def load_state_node (lead_memory_stage : Option String) (dynamic_rules : List String)
    (now : String) : CommercialState :=
  { etapa_comercial := (lead_memory_stage.bind parseEtapa).getD EtapaComercial.nuevo,
    productos_detectados := [],
    productos_confirmados := [],
    reglas_activas := dynamic_rules,
    ultima_actualizacion := some now }

/-- Node `update_state_node` from `core/graph.py` (lines 333-364), as a function
of the commercial state, the (optional) vendor output, the
`vendor_action["nombre_tool"]` value and `tool_success`.  `now` stands for
`datetime.now().isoformat()`. -/
def update_state_core (cs : CommercialState) (vendor_output : Option VendorOutput)
    (action_tool : Option String) (tool_success : Bool) (now : String) : CommercialState :=
  let cs1 :=
    match vendor_output with
    | none => cs
    | some vo =>
        let csA := { cs with intencion_actual := some vo.intencion }
        match vo.intencion with
        | .consulta_producto =>
            if csA.etapa_comercial = EtapaComercial.nuevo then
              { csA with etapa_comercial := .explorando }
            else csA
        | .intencion_compra => { csA with etapa_comercial := .interesado }
        | .confirmacion_compra =>
            if !csA.productos_confirmados.isEmpty then
              { csA with etapa_comercial := .confirmando }
            else csA
        | _ => csA
  let cs2 :=
    if action_tool = some "payment" && tool_success then
      { cs1 with etapa_comercial := .pagando }
    else cs1
  { cs2 with ultima_actualizacion := some now }

/-- One declared parameter of a user-defined custom tool
(`tool.get("parameters")` entries in `tool_router.py`). -/
structure ParamDecl where
  name : String
  required : Bool := true
deriving DecidableEq, Repr

/-- A user-defined custom tool entry from `business_profile["tools_config"]`
(the fields `_load_custom_tools` reads). -/
structure CustomToolConfig where
  name : String
  enabled : Bool := true
  parameters : List ParamDecl := []
deriving DecidableEq, Repr

/-- The registered key for a custom tool built by `_load_custom_tools`:
`f"custom_{name}".replace(" ", "_").lower()`, spelled character-wise
(for a one-character pattern, `str.replace` is exactly this map). -/
def customToolKey (name : String) : String :=
  String.mk ((("custom_" ++ name).data.map
    (fun c => if c = ' ' then '_' else c)).map Char.toLower)

/-- The `ToolRouter` context slice that `validate_tool_call` consults:
the registered custom-tool keys (enabled tools only). -/
structure RouterContext where
  custom_tools : List CustomToolConfig := []
deriving DecidableEq, Repr

/-- Registered custom-tool keys (`self.custom_tools` of `ToolRouter`). -/
def RouterContext.customKeys (ctx : RouterContext) : List String :=
  (ctx.custom_tools.filter (fun t => t.enabled)).map (fun t => customToolKey t.name)

/-- Required fields of the built-in tools' pydantic input schemas
(`schemas/tool_schemas.py`): the fields declared with `Field(...)` and no
default.  `none` means the tool is not in `TOOL_DEFINITIONS`. -/
def builtinRequiredFields (tool_name : String) : Option (List String) :=
  if tool_name = "search_product" then some ["query"]
  else if tool_name = "payment" then some ["product_id", "lead_id", "business_id"]
  else if tool_name = "followup" then some ["lead_id", "business_id"]
  else if tool_name = "media" then some ["media_type"]
  else if tool_name = "crm" then some ["action", "lead_id", "business_id"]
  else if tool_name = "search_knowledge" then some ["query"]
  else none

/-- Models pydantic `input_schema(**input_data)`: every required field must
be present and not `None` (pydantic rejects `None` for these non-optional
fields).  Type coercion failures are not modelled; the claims only need
that schema violations exist and are rejected, and a missing required
field is such a violation. -/
def schemaAccepts (required : List String) (input : Params) : Bool :=
  required.all (fun f =>
    match input.lookup f with
    | some v => v ≠ PyVal.vNone
    | none => false)

/-- Method `ToolRouter.validate_tool_call` from `core/tool_router.py`
(lines 212-226): custom tools are accepted unconditionally; unknown tools
are rejected; built-in tools run pydantic validation of the input. -/
def validate_tool_call (ctx : RouterContext) (tool_name : String) (input : Params) :
    Bool × Option String :=
  if tool_name ∈ ctx.customKeys then (true, none)
  else
    match builtinRequiredFields tool_name with
    | none => (false, some ("Tool '" ++ tool_name ++ "' no existe"))
    | some required =>
        if schemaAccepts required input then (true, none)
        else (false, some "validation error: campo requerido faltante")

/-- Record `ToolCallRecord` from `core/graph.py` (lines 44-49). -/
structure ToolCallRecord where
  tool_name : String
  tool_input : Params
  result : String
  success : Bool
  error : Option String
deriving DecidableEq, Repr

/-- Outcome of `router.execute_tool` + `format_tool_result` for a
dispatched call (the tool collaborators are external HTTP services, so
the dispatch outcome is an input of the embedding): `success` is
`result.get("success", False)`, `error` is `result.get("error")`, and
`text` is the `format_tool_result(result)` rendering. -/
structure DispatchResult where
  success : Bool
  error : Option String
  text : String
deriving DecidableEq, Repr

/-- The slice of the `execute_tool_node` return value the claims are
about, plus an explicit `dispatched` flag recording whether
`router.execute_tool` was reached (the only branch that calls out to a
tool collaborator). -/
structure ExecResult where
  tool_result : Option String
  tool_success : Bool
  tool_error : Option String
  tool_calls : List ToolCallRecord
  dispatched : Bool
deriving DecidableEq, Repr

/-- Python `vendor_action.get("nombre_tool")` on the optional action dict. -/
def actionTool (vendor_action : Option AgentAction) : Option String :=
  vendor_action.bind AgentAction.nombre_tool

/-- Python `vendor_action.get("input_tool", ...)` (empty-dict default), flattened through the later
`tool_input or {}` uses. -/
def actionInput (vendor_action : Option AgentAction) : Params :=
  ((vendor_action.bind AgentAction.input_tool)).getD []

/-- Node `execute_tool_node` from `core/graph.py` (lines 259-330), as a pure
function of the graph-state fields it reads and the external dispatch
outcome.  A node that omits `tool_calls` from its return dict leaves the
graph-state list unchanged, which is modelled by returning `tool_calls`
untouched on those branches. -/
def execute_tool_node (state_valid : Bool) (vendor_action : Option AgentAction)
    (ctx : RouterContext) (dispatch : DispatchResult)
    (tool_calls : List ToolCallRecord) : ExecResult :=
  if !state_valid then
    { tool_result := none, tool_success := false,
      tool_error := some "State validation failed",
      tool_calls := tool_calls, dispatched := false }
  else
    let tool_name_opt := actionTool vendor_action
    let tool_input := actionInput vendor_action
    if !strTruthy tool_name_opt then
      { tool_result := none, tool_success := true, tool_error := none,
        tool_calls := tool_calls, dispatched := false }
    else
      let tool_name := tool_name_opt.getD ""
      let validated := validate_tool_call ctx tool_name tool_input
      if !validated.1 then
        { tool_result := some ("Parámetros inválidos: " ++ (validated.2.getD "None")),
          tool_success := false, tool_error := validated.2,
          tool_calls := tool_calls, dispatched := false }
      else
        let result_text := dispatch.text
        let tool_success := dispatch.success
        let tool_error := if tool_success then none else dispatch.error
        let record : ToolCallRecord :=
          { tool_name := tool_name, tool_input := tool_input,
            result := result_text, success := tool_success, error := tool_error }
        { tool_result := some result_text, tool_success := tool_success,
          tool_error := tool_error,
          tool_calls := tool_calls ++ [record], dispatched := true }

/-- An element of the JSON list stored under `agent_v2:rules_pending:<biz>`.
Every writer appends dicts, but JSON would also allow plain strings; the
distinction matters because `_save_pending_rules` tests membership of the
raw rule STRING in this list. -/
inductive PendingItem where
  | strItem (s : String)
  | dictItem (regla : String) (justificacion : Option String) (estado : String)
deriving DecidableEq, Repr

/-- Python `lst[-n:]`. -/
def lastN (n : Nat) (l : List α) : List α :=
  l.drop (l.length - n)

/-- Method `RefinerAgent._save_pending_rules` from `agents/refiner.py`
(lines 211-242), given the decoded existing pending list: for each
proposed rule, append a dict entry unless the rule string itself is a
member of the (accumulating) list, then keep the last 30 entries. -/
def save_pending_rules (existing : List PendingItem) (nuevas_reglas : List String)
    (justificacion : Option String) : List PendingItem :=
  let appended := nuevas_reglas.foldl
    (fun acc rule =>
      if PendingItem.strItem rule ∈ acc then acc
      else acc ++ [PendingItem.dictItem rule justificacion "pendiente"])
    existing
  lastN 30 appended

/-- The per-business rule store: decoded pending list
(`agent_v2:rules_pending:<biz>`) and the active rules
(`agent_v2:rules:<biz>`, field `"reglas"`). -/
structure RuleStore where
  pending : List PendingItem
  active : List String
deriving DecidableEq, Repr

/-- Method `RefinerAgent.approve_rule` from `agents/refiner.py` (lines 244-280):
`none` models a `False` return (index out of range, or the
`rule_to_approve["regla"]` access raising on a non-dict entry, caught by
the `except`), in which case nothing is written back.  On success the
entry is popped from pending and its text appended to the active rules,
which are capped to the last 50. -/
def approve_rule (s : RuleStore) (rule_index : Nat) : Option RuleStore :=
  if h : rule_index < s.pending.length then
    match s.pending.get ⟨rule_index, h⟩ with
    | .strItem _ => none
    | .dictItem regla _ _ =>
        some { pending := s.pending.eraseIdx rule_index,
               active := lastN 50 (s.active ++ [regla]) }
  else none

/-- Method `RefinerAgent.get_pending_rules` from `agents/refiner.py`
(lines 310-324): the decoded pending list. -/
def get_pending_rules (s : RuleStore) : List PendingItem :=
  s.pending

/-- Predicate for `\w` of the pattern `\{\{(\w+)\}\}` in `tools/custom_tool.py`
(ASCII word characters; the source's Unicode word characters beyond
ASCII are not exercised by any claim). -/
def isWordChar (c : Char) : Bool :=
  c.isAlphanum || c = '_'

/-- Fact: `dropWhile` never lengthens a list (termination helper). -/
theorem dropWhileLenLe (p : α → Bool) (l : List α) : (l.dropWhile p).length ≤ l.length := by
  conv_rhs => rw [← List.takeWhile_append_dropWhile (p := p) (l := l)]
  rw [List.length_append]
  exact Nat.le_add_left _ _

/-- The `replace_match` callback of `interpolate_params`
(`tools/custom_tool.py` lines 33-36): a bound, non-`None` value is
rendered with `str(...)`; an unbound name, or a name bound to `None`,
yields `match.group(0)`, i.e. the placeholder itself. -/
def placeholderReplacement (params : Params) (w : List Char) : List Char :=
  match params.lookup (String.mk w) with
  | some v =>
      if v = PyVal.vNone then '{' :: '{' :: (w ++ ['}', '}'])
      else v.toPyStr.data
  | none => '{' :: '{' :: (w ++ ['}', '}'])

/-- The `re.sub(r'\{\{(\w+)\}\}', replace_match, template)` scan of
`interpolate_params`, on character lists: left-to-right, non-overlapping;
at each position a match needs `{{`, a nonempty run of word characters,
then `}}` (greediness of `\w+` cannot backtrack into `}`); on a failed
match the scan advances one character.  The scan consumes at least one
character per step, so `fuel := input length` makes the recursion
structural without changing the result (`scanSubAux_fuel_irrel`). -/
def scanSubAux (params : Params) : Nat → List Char → List Char
  | 0, l => l
  | _ + 1, [] => []
  | fuel + 1, c :: rest =>
      if c = '{' ∧ rest.head? = some '{' then
        let rest2 := rest.tail
        let w := rest2.takeWhile isWordChar
        if w.isEmpty then c :: scanSubAux params fuel rest
        else if (rest2.dropWhile isWordChar).take 2 = ['}', '}'] then
          placeholderReplacement params w ++
            scanSubAux params fuel ((rest2.dropWhile isWordChar).drop 2)
        else c :: scanSubAux params fuel rest
      else c :: scanSubAux params fuel rest

/-- Character-list level `re.sub` substitution. -/
def scanSub (params : Params) (l : List Char) : List Char :=
  scanSubAux params l.length l

/-- String-level `re.sub` substitution of `interpolate_params`. -/
def substPlaceholders (params : Params) (s : String) : String :=
  String.mk (scanSub params s.data)

/-- A Python template value as passed to `interpolate_params`: a string,
a dict, a list, or any other (non-string) leaf, which the function
returns unchanged.  Non-string leaves are indexed abstractly. -/
inductive Template where
  | str (s : String)
  | dict (entries : List (String × Template))
  | list (items : List Template)
  | other (k : Nat)
deriving Repr

/-- Function `interpolate_params` from `tools/custom_tool.py` (lines 30-42):
substitute in strings, recurse through dicts (values only) and lists,
return non-string leaves unchanged.  (`attach` only carries the
membership proof for termination.) -/
def interpolate_params (t : Template) (params : Params) : Template :=
  match t with
  | .str s => .str (substPlaceholders params s)
  | .dict entries =>
      .dict (entries.attach.map (fun kv => (kv.1.1, interpolate_params kv.1.2 params)))
  | .list items =>
      .list (items.attach.map (fun it => interpolate_params it.1 params))
  | .other k => .other k
termination_by sizeOf t
decreasing_by
  · obtain ⟨⟨a, b⟩, hmem⟩ := kv
    have h1 := List.sizeOf_lt_of_mem hmem
    simp at h1 ⊢
    omega
  · obtain ⟨x, hmem⟩ := it
    have h1 := List.sizeOf_lt_of_mem hmem
    simp at h1 ⊢
    omega

/-- Tokenization of a string by the same scan as `scanSub`: the maximal
placeholder matches become `ph` tokens, everything else `ch` tokens. -/
inductive Tok where
  | ch (c : Char)
  | ph (w : List Char)
deriving DecidableEq, Repr

/-- The decomposition of the input that `re.sub` induces: same scan as
`scanSubAux`, but recording tokens instead of substituting. -/
def tokenizeAux : Nat → List Char → List Tok
  | 0, l => l.map Tok.ch
  | _ + 1, [] => []
  | fuel + 1, c :: rest =>
      if c = '{' ∧ rest.head? = some '{' then
        let rest2 := rest.tail
        let w := rest2.takeWhile isWordChar
        if w.isEmpty then .ch c :: tokenizeAux fuel rest
        else if (rest2.dropWhile isWordChar).take 2 = ['}', '}'] then
          .ph w :: tokenizeAux fuel ((rest2.dropWhile isWordChar).drop 2)
        else .ch c :: tokenizeAux fuel rest
      else .ch c :: tokenizeAux fuel rest

/-- Token decomposition of a character list under the `re.sub` scan. -/
def tokenize (l : List Char) : List Tok :=
  tokenizeAux l.length l

/-- Original text of a token. -/
def renderTok : Tok → List Char
  | .ch c => [c]
  | .ph w => '{' :: '{' :: (w ++ ['}', '}'])

/-- Substituted text of a token, per the `replace_match` callback. -/
def substTok (params : Params) : Tok → List Char
  | .ch c => [c]
  | .ph w => placeholderReplacement params w

/-- Per-turn external inputs of the state-governed pipeline
(`create_state_governed_graph` in `core/graph.py`): the interpretation
service's structured output, the tier-1 validation outcome, and the
outcome of a dispatched tool call. -/
structure TurnOracle where
  vendor_output : VendorOutput
  tier1 : Tier1Outcome
  dispatch : DispatchResult
deriving DecidableEq, Repr

/-- Trace of one turn of the state-governed graph: the commercial state
after `load_state`, the validation verdict, the decision, the (optional)
tool-execution result, and the commercial state at the end of the turn
(`update_state` runs only on the execute-tool branch; on the respond-only
branch the loaded state is final). -/
structure PipelineTrace where
  afterLoad : CommercialState
  validation : ObserverValidation
  stateValid : Bool
  decision : DecideResult
  toolExec : Option ExecResult
  afterUpdate : CommercialState
deriving DecidableEq, Repr

/-- One turn of the state-governed graph
(`create_state_governed_graph`, `core/graph.py` lines 670-706):
`load_state → vendor_interpret → state_validation → decide_action →
(execute_tool → update_state)? → finalize → refiner`, with the
conditional edge `should_execute_tool_v2` routing on `graph_decision`.
`finalize`/`refiner` do not touch the commercial state and are omitted
from the trace. -/
def runTurn (lead_memory_stage : Option String) (dynamic_rules : List String)
    (oracle : TurnOracle) (ctx : RouterContext) (now1 now2 : String) : PipelineTrace :=
  let cs0 := load_state_node lead_memory_stage dynamic_rules now1
  let validation := observerValidate oracle.tier1 oracle.vendor_output (some cs0)
  let sv := state_validation_result validation
  let d := decide_action_node sv (some oracle.vendor_output) (some cs0)
  if d.graph_decision = "execute_tool" then
    let er := execute_tool_node sv d.vendor_action ctx oracle.dispatch []
    let cs1 := update_state_core cs0 (some oracle.vendor_output)
      (actionTool d.vendor_action) er.tool_success now2
    { afterLoad := cs0, validation := validation, stateValid := sv,
      decision := d, toolExec := some er, afterUpdate := cs1 }
  else
    { afterLoad := cs0, validation := validation, stateValid := sv,
      decision := d, toolExec := none, afterUpdate := cs0 }

/-! ### Sample values used by witnesses and counterexamples -/

/-- A vendor output that wants the `payment` tool. -/
def voPayment : VendorOutput :=
  { intencion := .confirmacion_compra, mensaje := "Genero tu link de pago",
    requiere_tool := true, tool_sugerida := some "payment", confianza := 1 }

/-- A commercial state with no confirmed products (all defaults). -/
def csNoConfirm : CommercialState := {}

/-- A `confirmando` state with a confirmed product and a positive total. -/
def csReady : CommercialState :=
  { etapa_comercial := .confirmando,
    productos_confirmados := [{ product_id := "P1", nombre := "Prod", confirmado := true }],
    total_calculado := some 50 }

/-! ### Helper lemmas -/

/-- With no confirmed products the payment gate is closed, whatever the
rest of the state says. -/
theorem can_execute_payment_of_no_confirmados (s : CommercialState)
    (h : s.productos_confirmados = []) :
    (s.can_execute_tool "payment").1 = false := by
  simp only [CommercialState.can_execute_tool, h]
  cases s.estado_valido <;> simp

/-- Invariant: `update_state_node` never touches `productos_confirmados`. -/
theorem update_state_preserves_confirmados (cs : CommercialState)
    (vo : Option VendorOutput) (t : Option String) (ok : Bool) (now : String) :
    (update_state_core cs vo t ok now).productos_confirmados = cs.productos_confirmados := by
  simp only [update_state_core]
  repeat' split
  all_goals rfl

/-- Invariant: `update_state_node` can only land in `confirmando` via the
`confirmacion_compra` branch, which requires confirmed products; with none,
`confirmando` after the update means it was already the stage before. -/
theorem update_state_confirmando_source (cs : CommercialState)
    (vo : Option VendorOutput) (t : Option String) (ok : Bool) (now : String)
    (h : cs.productos_confirmados = [])
    (hc : (update_state_core cs vo t ok now).etapa_comercial = .confirmando) :
    cs.etapa_comercial = .confirmando := by
  simp only [update_state_core] at hc
  revert hc
  repeat' split
  all_goals simp_all

/-- When the commercial state has no confirmed products,
`decide_action_node` never decides to execute the `payment` tool. -/
theorem decide_action_no_payment_of_no_confirmados (sv : Bool) (vo : VendorOutput)
    (cs : CommercialState) (h : cs.productos_confirmados = []) :
    ¬ ((decide_action_node sv (some vo) (some cs)).graph_decision = "execute_tool" ∧
        actionTool (decide_action_node sv (some vo) (some cs)).vendor_action =
          some "payment") := by
  have hpay := can_execute_payment_of_no_confirmados cs h
  rintro ⟨hd, ht⟩
  simp only [decide_action_node] at hd ht
  revert hd ht
  generalize vo.tool_sugerida.getD "" = t
  repeat' split
  all_goals simp_all [respondWith, actionTool]
  all_goals
    rintro rfl
    simp_all

/-! ### C1 -/

/-- C1: for every interpretation output and every commercial state, a
validation verdict with `estado_valido = false` makes the Decision Stage
return the respond-only action carrying the interpretation's reply text,
with no tool name and no tool input — in particular it never returns
`execute_tool`, and any suggested tool in the interpretation is ignored. -/
theorem c1_invalid_validation_forces_respond (validation : ObserverValidation)
    (vo : VendorOutput) (cs : Option CommercialState)
    (h : validation.estado_valido = false) :
    decide_action_node (state_validation_result validation) (some vo) cs =
      { graph_decision := "response_only",
        vendor_action := some
          { accion := "respuesta", mensaje := vo.mensaje,
            nombre_tool := none, input_tool := none } } ∧
    (decide_action_node (state_validation_result validation) (some vo) cs).graph_decision ≠
      "execute_tool" := by
  have he : decide_action_node (state_validation_result validation) (some vo) cs =
      { graph_decision := "response_only",
        vendor_action := some
          { accion := "respuesta", mensaje := vo.mensaje,
            nombre_tool := none, input_tool := none } } := by
    simp [decide_action_node, state_validation_result, h]
  refine ⟨he, ?_⟩
  rw [he]
  simp

/-- Witness for C1 at a concrete forced-invalid verdict and a vendor output
that suggests the `payment` tool. -/
theorem c1_invalid_validation_forces_respond_witness :
    (⟨false, [], [], [], none⟩ : ObserverValidation).estado_valido = false ∧
    (decide_action_node (state_validation_result ⟨false, [], [], [], none⟩)
        (some voPayment) (some csReady)).graph_decision ≠ "execute_tool" :=
  ⟨rfl,
    (c1_invalid_validation_forces_respond ⟨false, [], [], [], none⟩ voPayment
      (some csReady) rfl).2⟩

/-! ### C2 -/

/-- C2: in every commercial state (hence in every stage),
`can_execute_tool "payment"` is `false` whenever `productos_confirmados`
is empty, and it is `true` exactly when the state is valid, some product
is confirmed, and the computed total is present and strictly positive. -/
theorem c2_payment_gate (s : CommercialState) :
    (s.productos_confirmados = [] → (s.can_execute_tool "payment").1 = false) ∧
    ((s.can_execute_tool "payment").1 = true ↔
      (s.estado_valido = true ∧ s.productos_confirmados ≠ [] ∧
        ∃ t, s.total_calculado = some t ∧ 0 < t)) := by
  constructor
  · exact fun h => can_execute_payment_of_no_confirmados s h
  · unfold CommercialState.can_execute_tool
    cases hv : s.estado_valido with
    | false => simp
    | true =>
        cases hp : s.productos_confirmados with
        | nil => simp
        | cons p ps =>
            cases ht : s.total_calculado with
            | none => simp
            | some t =>
                by_cases hpos : t ≤ 0
                · simp [hpos]
                · push_neg at hpos
                  simp [not_le.mpr hpos]
                  exact hpos

/-- Witness for C2: the empty-cart state is blocked; a valid `confirmando`
state with a product and a positive total is allowed. -/
theorem c2_payment_gate_witness :
    (csNoConfirm.can_execute_tool "payment").1 = false ∧
    (csReady.can_execute_tool "payment").1 = true := by
  constructor
  · exact (c2_payment_gate csNoConfirm).1 rfl
  · apply (c2_payment_gate csReady).2.mpr
    refine ⟨rfl, ?_, ?_⟩
    · decide
    · exact ⟨50, rfl, by norm_num⟩

/-! ### C3 -/

/-- The hard-coded tier-2 rules only append to `warnings`, never drop. -/
theorem applyHardcodedRules_warnings_mono (v : ObserverValidation) (vo : VendorOutput)
    (cs : Option CommercialState) (w : String) (hw : w ∈ v.warnings) :
    w ∈ (applyHardcodedRules v vo cs).warnings := by
  unfold applyHardcodedRules
  repeat' split
  all_goals simp_all

/-- Tier-2 payment rule: `payment` suggested with no confirmed products
forces `estado_valido = false`. -/
theorem applyHardcodedRules_payment_blocks (v : ObserverValidation) (vo : VendorOutput)
    (c : CommercialState) (hp : vo.tool_sugerida = some "payment")
    (hc : c.productos_confirmados = []) :
    (applyHardcodedRules v vo (some c)).estado_valido = false := by
  unfold applyHardcodedRules
  repeat' split
  all_goals simp_all

/-- When the payment rule does not fire, tier 2 leaves `estado_valido`
unchanged (the other three rules are warnings only). -/
theorem applyHardcodedRules_valid_of_not_blocked (v : ObserverValidation)
    (vo : VendorOutput) (cs : Option CommercialState)
    (h : ¬ (vo.tool_sugerida = some "payment" ∧
        ∃ c, cs = some c ∧ c.productos_confirmados = [])) :
    (applyHardcodedRules v vo cs).estado_valido = v.estado_valido := by
  unfold applyHardcodedRules
  repeat' split
  all_goals simp_all
  all_goals
    cases cs with
    | none => simp_all
    | some c => exact absurd (List.isEmpty_iff.mp (by simp_all)) (h c rfl)

/-- Tier-2 low-confidence rule appends its warning. -/
theorem applyHardcodedRules_low_confidence (v : ObserverValidation) (vo : VendorOutput)
    (cs : Option CommercialState) (h : vo.confianza < mkRat 3 10) :
    lowConfidenceWarning vo.confianza ∈ (applyHardcodedRules v vo cs).warnings := by
  unfold applyHardcodedRules
  repeat' split
  all_goals simp_all

/-- Tier-2 `requiere_tool`-without-tool rule appends its warning. -/
theorem applyHardcodedRules_wants_tool (v : ObserverValidation) (vo : VendorOutput)
    (cs : Option CommercialState) (h1 : vo.requiere_tool = true)
    (h2 : vo.tool_sugerida = none) :
    "Indica requiere_tool=true pero no sugiere qué tool" ∈
      (applyHardcodedRules v vo cs).warnings := by
  unfold applyHardcodedRules
  repeat' split
  all_goals simp_all [strTruthy]

/-- Tier-2 payment-intent rule appends its warning. -/
theorem applyHardcodedRules_payment_intent (v : ObserverValidation) (vo : VendorOutput)
    (cs : Option CommercialState) (hp : vo.tool_sugerida = some "payment")
    (hi : vo.intencion ≠ .confirmacion_compra) :
    "Sugiere payment pero la intención no es confirmacion_compra" ∈
      (applyHardcodedRules v vo cs).warnings := by
  unfold applyHardcodedRules
  repeat' split
  all_goals simp_all

/-- C3 (counterexample): the claim says the deterministic tier-2 rules are
applied in EVERY tier-1 failure case.  With `payment` suggested and no
confirmed products, tier 2 mandates `estado_valido = false` — and the
parse-failure path indeed yields `false` — but the service-error path
returns the fail-open verdict with `estado_valido = true` and no error:
`_apply_hardcoded_rules` is bypassed by the outer `except`. -/
theorem c3_service_error_skips_tier2_counterexample :
    (observerValidate .serviceError voPayment (some csNoConfirm)).estado_valido = true ∧
    (observerValidate .serviceError voPayment (some csNoConfirm)).errores = [] ∧
    (observerValidate .parseFail voPayment (some csNoConfirm)).estado_valido = false := by
  refine ⟨rfl, rfl, ?_⟩
  exact applyHardcodedRules_payment_blocks _ voPayment csNoConfirm rfl rfl

/-- C3 (amended): if the tier-1 coherence check fails to PARSE, the
Validation Stage fails open (`estado_valido = true` base verdict carrying
the degraded-validation warning) and the deterministic tier-2 rules are
still applied on top of that verdict (payment without confirmed products
blocks; the payment-intent, low-confidence and tool-less `requiere_tool`
rules add warnings); if instead the validation SERVICE errors, the stage
returns `estado_valido = true` with only the degraded-validation warning
and the tier-2 rules are not applied. -/
theorem c3_tier1_failure_fail_open (vo : VendorOutput) (cs : Option CommercialState) :
    ("No se pudo parsear respuesta del validador" ∈
      (observerValidate .parseFail vo cs).warnings) ∧
    (∀ c, cs = some c → vo.tool_sugerida = some "payment" →
      c.productos_confirmados = [] →
      (observerValidate .parseFail vo cs).estado_valido = false) ∧
    (¬ (vo.tool_sugerida = some "payment" ∧
        ∃ c, cs = some c ∧ c.productos_confirmados = []) →
      (observerValidate .parseFail vo cs).estado_valido = true) ∧
    (vo.confianza < mkRat 3 10 →
      lowConfidenceWarning vo.confianza ∈ (observerValidate .parseFail vo cs).warnings) ∧
    (vo.requiere_tool = true → vo.tool_sugerida = none →
      "Indica requiere_tool=true pero no sugiere qué tool" ∈
        (observerValidate .parseFail vo cs).warnings) ∧
    (observerValidate .serviceError vo cs =
      { estado_valido := true, errores := [],
        warnings := ["No se pudo ejecutar validación completa"],
        validaciones_pasadas := [], sugerencia_correccion := none }) := by
  refine ⟨?_, ?_, ?_, ?_, ?_, rfl⟩
  · exact applyHardcodedRules_warnings_mono _ vo cs _ (by simp)
  · intro c hc hp hempty
    subst hc
    exact applyHardcodedRules_payment_blocks _ vo c hp hempty
  · intro h
    exact applyHardcodedRules_valid_of_not_blocked _ vo cs h
  · intro h
    exact applyHardcodedRules_low_confidence _ vo cs h
  · intro h1 h2
    exact applyHardcodedRules_wants_tool _ vo cs h1 h2

/-- Witness for C3 (amended) at concrete inputs: the parse-failure path
blocks payment-without-confirmed-products, and the service-error path
returns exactly the fail-open verdict. -/
theorem c3_tier1_failure_fail_open_witness :
    (some csNoConfirm = some csNoConfirm) ∧
    (voPayment.tool_sugerida = some "payment") ∧
    (csNoConfirm.productos_confirmados = []) ∧
    (observerValidate .parseFail voPayment (some csNoConfirm)).estado_valido = false :=
  ⟨rfl, rfl, rfl,
    (c3_tier1_failure_fail_open voPayment (some csNoConfirm)).2.1 csNoConfirm rfl rfl rfl⟩

/-! ### C4 -/

/-- A decided `payment` action whose parameters fail schema validation
(the `PaymentInput` required fields are absent). -/
def payActionNoParams : AgentAction :=
  { accion := "tool", mensaje := "Genero tu link de pago",
    nombre_tool := some "payment", input_tool := some [] }

/-- C4 (counterexample): the claim says every Tool Execution Gate
invocation with a non-empty tool name appends exactly one ToolCallRecord,
including when parameter validation fails.  Here the tool name is
non-empty (`payment`), validation fails (required `PaymentInput` fields
missing), and the audit trail stays empty: the validation-failure branch
of `execute_tool_node` returns without touching `tool_calls`. -/
theorem c4_validation_failure_no_record_counterexample :
    strTruthy (actionTool (some payActionNoParams)) = true ∧
    (validate_tool_call { custom_tools := [] } "payment" []).1 = false ∧
    (execute_tool_node true (some payActionNoParams) { custom_tools := [] }
        { success := true, error := none, text := "ok" } []).tool_calls = [] := by
  decide

/-- C4 (amended): the Tool Execution Gate appends exactly one
ToolCallRecord when — and only when — it actually dispatches the tool
(whether the dispatch succeeds or fails); on the invalid-state,
empty-tool-name and parameter-validation-failure branches it appends
nothing, and dispatch happens exactly when the state is valid, the tool
name is non-empty and validation passes. -/
theorem c4_audit_trail (sv : Bool) (action : Option AgentAction) (ctx : RouterContext)
    (dispatch : DispatchResult) (calls : List ToolCallRecord) :
    ((execute_tool_node sv action ctx dispatch calls).dispatched = true →
      (execute_tool_node sv action ctx dispatch calls).tool_calls =
        calls ++ [{ tool_name := (actionTool action).getD "",
                    tool_input := actionInput action,
                    result := dispatch.text, success := dispatch.success,
                    error := if dispatch.success then none else dispatch.error }]) ∧
    ((execute_tool_node sv action ctx dispatch calls).dispatched = false →
      (execute_tool_node sv action ctx dispatch calls).tool_calls = calls) ∧
    ((execute_tool_node sv action ctx dispatch calls).dispatched = true ↔
      (sv = true ∧ strTruthy (actionTool action) = true ∧
        (validate_tool_call ctx ((actionTool action).getD "")
          (actionInput action)).1 = true)) := by
  cases sv with
  | false => simp [execute_tool_node]
  | true =>
      by_cases hname : strTruthy (actionTool action) = true
      · by_cases hval : (validate_tool_call ctx ((actionTool action).getD "")
            (actionInput action)).1 = true
        · cases hds : dispatch.success <;>
            simp [execute_tool_node, hname, hval, hds]
        · simp only [Bool.not_eq_true] at hval
          simp [execute_tool_node, hname, hval]
      · simp only [Bool.not_eq_true] at hname
        simp [execute_tool_node, hname]

/-- Witness for C4 (amended): a validated `search_product` call is
dispatched and appends exactly one record. -/
theorem c4_audit_trail_witness :
    (execute_tool_node true
        (some { accion := "tool", mensaje := "m", nombre_tool := some "search_product",
                input_tool := some [("query", PyVal.vStr "gorra")] })
        { custom_tools := [] } { success := true, error := none, text := "ok" }
        []).dispatched = true ∧
    (execute_tool_node true
        (some { accion := "tool", mensaje := "m", nombre_tool := some "search_product",
                input_tool := some [("query", PyVal.vStr "gorra")] })
        { custom_tools := [] } { success := true, error := none, text := "ok" }
        []).tool_calls =
      [] ++ [{ tool_name := "search_product", tool_input := [("query", PyVal.vStr "gorra")],
               result := "ok", success := true, error := none }] :=
  ⟨by decide,
    (c4_audit_trail true
      (some { accion := "tool", mensaje := "m", nombre_tool := some "search_product",
              input_tool := some [("query", PyVal.vStr "gorra")] })
      { custom_tools := [] } { success := true, error := none, text := "ok" } []).1
      (by decide)⟩

/-! ### C8 -/

/-- A user-defined custom tool that declares a required parameter. -/
def customEnvioTool : CustomToolConfig :=
  { name := "envio", parameters := [{ name := "direccion", required := true }] }

/-- C8 (counterexample): the claim says the gate re-validates input
against the named tool's declared parameter schema for EVERY tool,
including user-defined custom tools, and fails closed on violation.
`custom_envio` declares a required parameter `direccion`, the input binds
nothing, yet `validate_tool_call` accepts unconditionally and the gate
dispatches the tool: custom tools are never schema-validated. -/
theorem c8_custom_tool_not_validated_counterexample :
    customEnvioTool.parameters.all (fun p => p.required) = true ∧
    validate_tool_call { custom_tools := [customEnvioTool] } "custom_envio" [] =
      (true, none) ∧
    (execute_tool_node true
        (some { accion := "tool", mensaje := "m", nombre_tool := some "custom_envio",
                input_tool := some [] })
        { custom_tools := [customEnvioTool] }
        { success := true, error := none, text := "ok" } []).dispatched = true := by
  decide

/-- C8 (amended): for the built-in tools the gate re-validates the input
against the tool's pydantic schema and fails closed — `validate_tool_call`
rejects, the tool collaborator is never dispatched and the recorded
outcome has `success = false`; for registered custom tools
`validate_tool_call` accepts any input unconditionally (no schema check). -/
theorem c8_builtin_schema_gate :
    (∀ (ctx : RouterContext) (tool : String) (input : Params) (req : List String),
      builtinRequiredFields tool = some req → tool ∉ ctx.customKeys →
      schemaAccepts req input = false →
      (validate_tool_call ctx tool input).1 = false) ∧
    (∀ (ctx : RouterContext) (tool : String) (input : Params),
      tool ∈ ctx.customKeys → validate_tool_call ctx tool input = (true, none)) ∧
    (∀ (sv : Bool) (action : Option AgentAction) (ctx : RouterContext)
        (dispatch : DispatchResult) (calls : List ToolCallRecord),
      (validate_tool_call ctx ((actionTool action).getD "")
        (actionInput action)).1 = false →
      (execute_tool_node sv action ctx dispatch calls).dispatched = false ∧
      (sv = true → strTruthy (actionTool action) = true →
        (execute_tool_node sv action ctx dispatch calls).tool_success = false)) := by
  refine ⟨?_, ?_, ?_⟩
  · intro ctx tool input req hreq hnc hacc
    unfold validate_tool_call
    simp [hnc, hreq, hacc]
  · intro ctx tool input h
    unfold validate_tool_call
    simp [h]
  · intro sv action ctx dispatch calls hv
    refine ⟨?_, ?_⟩
    · cases sv with
      | false => rfl
      | true =>
          simp [execute_tool_node, hv]
          split <;> rfl
    · intro h1 h2
      subst h1
      simp [execute_tool_node, hv, h2]

/-- Witness for C8 (amended) at concrete inputs: `payment` with missing
required fields is rejected and not dispatched; a registered custom tool
passes validation with an empty input. -/
theorem c8_builtin_schema_gate_witness :
    (validate_tool_call { custom_tools := [] } "payment" []).1 = false ∧
    (execute_tool_node true (some payActionNoParams) { custom_tools := [] }
        { success := true, error := none, text := "ok" } []).dispatched = false ∧
    validate_tool_call { custom_tools := [customEnvioTool] } "custom_envio" [] =
      (true, none) := by
  refine ⟨?_, ?_, ?_⟩
  · exact c8_builtin_schema_gate.1 { custom_tools := [] } "payment" []
      ["product_id", "lead_id", "business_id"] rfl (by decide) (by decide)
  · exact (c8_builtin_schema_gate.2.2 true (some payActionNoParams) { custom_tools := [] }
      { success := true, error := none, text := "ok" } [] (by decide)).1
  · exact c8_builtin_schema_gate.2.1 { custom_tools := [customEnvioTool] }
      "custom_envio" [] (by decide)

/-! ### C5 -/

/-- C5 (code-bug evidence): `_save_pending_rules` appends DICT entries to
the pending list but deduplicates by testing membership of the raw rule
STRING in that list of dicts — a comparison that is never true — so
saving the same proposed rule twice appends it twice.  Evaluated at the
failing input: an empty store, then the rule `"R"` saved twice. -/
theorem c5_save_pending_rules_duplicates :
    save_pending_rules (save_pending_rules [] ["R"] none) ["R"] none =
      [PendingItem.dictItem "R" none "pendiente",
        PendingItem.dictItem "R" none "pendiente"] ∧
    (save_pending_rules (save_pending_rules [] ["R"] none) ["R"] none).count
      (PendingItem.dictItem "R" none "pendiente") = 2 ∧
    (save_pending_rules (save_pending_rules [] ["R"] none) ["R"] none).length ≤ 30 := by
  decide

/-! ### C9 -/

/-- Python `lst[-n:]` returns the list itself when it is short enough. -/
theorem lastN_of_le (n : Nat) (l : List α) (h : l.length ≤ n) : lastN n l = l := by
  simp [lastN, Nat.sub_eq_zero_of_le h]

/-- The just-appended element survives the `lst[-n:]` cap (for `n > 0`). -/
theorem mem_lastN_append_singleton (n : Nat) (hn : 0 < n) (l : List α) (a : α) :
    a ∈ lastN n (l ++ [a]) := by
  unfold lastN
  by_cases h : (l ++ [a]).length ≤ n
  · rw [Nat.sub_eq_zero_of_le h]
    simp
  · push_neg at h
    have hk : (l ++ [a]).length - n ≤ l.length := by
      simp at h ⊢
      omega
    rw [List.drop_append_of_le_length hk]
    simp

/-- Removing index `i` from a list in which the element at `i` occurs
exactly once removes that element from the list altogether. -/
theorem not_mem_eraseIdx_of_count_one [DecidableEq α] (l : List α) (i : Nat)
    (hi : i < l.length) (x : α) (hx : l.get ⟨i, hi⟩ = x) (h1 : l.count x = 1) :
    x ∉ l.eraseIdx i := by
  have hsplit : l = l.take i ++ l.drop i := (List.take_append_drop i l).symm
  have hdrop : l.drop i = x :: l.drop (i + 1) := by
    rw [List.drop_eq_getElem_cons hi]
    simp [List.get_eq_getElem] at hx
    rw [hx]
  have hcount : l.count x = (l.take i).count x + (1 + (l.drop (i + 1)).count x) := by
    conv_lhs => rw [hsplit, hdrop]
    simp [List.count_append, List.count_cons]
    omega
  have htake : (l.take i).count x = 0 := by omega
  have hdrop2 : (l.drop (i + 1)).count x = 0 := by omega
  rw [List.eraseIdx_eq_take_drop_succ]
  intro hmem
  rcases List.mem_append.mp hmem with hmem1 | hmem2
  · exact absurd htake (by simp [List.count_eq_zero]; exact hmem1)
  · exact absurd hdrop2 (by simp [List.count_eq_zero]; exact hmem2)

/-- C9 (counterexample): the claim says that after a successful
`approve(business, i)` the active collection contains the approved rule's
text EXACTLY once.  If the active list already contains that text,
`approve_rule` appends a second copy: the count becomes 2. -/
theorem c9_active_duplicate_counterexample :
    approve_rule { pending := [PendingItem.dictItem "R" none "pendiente"],
                   active := ["R"] } 0 =
      some { pending := [], active := ["R", "R"] } ∧
    (["R", "R"].count "R") = 2 := by
  decide

/-- C9 (amended): for a valid index holding a dict entry, `approve_rule`
succeeds; the pending list afterwards is exactly the original with index
`i` removed (one entry shorter, and no longer containing the entry when
its content occurred only once); the approved rule's text is appended to
the active collection, capped to the last 50 — so it is contained in the
active collection, its count goes up by exactly one when no eviction
occurs, and it occurs exactly once when it was not already present. -/
theorem c9_approve_round_trip (s : RuleStore) (i : Nat) (hi : i < s.pending.length)
    (regla : String) (just : Option String) (est : String)
    (hit : s.pending.get ⟨i, hi⟩ = PendingItem.dictItem regla just est) :
    ∃ s2, approve_rule s i = some s2 ∧
      get_pending_rules s2 = s.pending.eraseIdx i ∧
      (get_pending_rules s2).length + 1 = s.pending.length ∧
      (s.pending.count (PendingItem.dictItem regla just est) = 1 →
        PendingItem.dictItem regla just est ∉ get_pending_rules s2) ∧
      s2.active = lastN 50 (s.active ++ [regla]) ∧
      regla ∈ s2.active ∧
      (s.active.length < 50 → s2.active.count regla = s.active.count regla + 1) ∧
      (regla ∉ s.active → s.active.length < 50 → s2.active.count regla = 1) := by
  have happ : approve_rule s i =
      some { pending := s.pending.eraseIdx i,
             active := lastN 50 (s.active ++ [regla]) } := by
    unfold approve_rule
    rw [dif_pos hi, hit]
  have hcap : s.active.length < 50 → lastN 50 (s.active ++ [regla]) = s.active ++ [regla] := by
    intro h
    exact lastN_of_le 50 _ (by simp; omega)
  refine ⟨_, happ, rfl, ?_, ?_, rfl, ?_, ?_, ?_⟩
  · exact List.length_eraseIdx_add_one hi
  · intro h1
    exact not_mem_eraseIdx_of_count_one s.pending i hi _ hit h1
  · exact mem_lastN_append_singleton 50 (by omega) s.active regla
  · intro h
    simp only [hcap h]
    simp [List.count_append]
  · intro hnm h
    simp only [hcap h]
    simp [List.count_append, List.count_eq_zero.mpr hnm]

/-- Witness for C9 (amended) at a concrete store: approving index 0 moves
the rule out of pending and into active exactly once. -/
theorem c9_approve_round_trip_witness :
    ∃ s2, approve_rule { pending := [PendingItem.dictItem "Regla A" none "pendiente"],
                         active := [] } 0 = some s2 ∧
      get_pending_rules s2 = [] ∧
      "Regla A" ∈ s2.active ∧
      s2.active.count "Regla A" = 1 := by
  obtain ⟨s2, h1, h2, _, _, _, h6, _, h8⟩ :=
    c9_approve_round_trip
      { pending := [PendingItem.dictItem "Regla A" none "pendiente"], active := [] }
      0 (by decide) "Regla A" none "pendiente" rfl
  exact ⟨s2, h1, by simpa using h2, h6, h8 (by decide) (by decide)⟩

/-! ### C7 -/

/-- C7: the State Update Stage sets `intencion_actual` to the
interpretation's intent and stamps `ultima_actualizacion` on every update;
when no successful payment overrides the stage, the stage advances per
the mapping: `consulta_producto` moves to `explorando` only from `nuevo`,
`intencion_compra` moves to `interesado`, `confirmacion_compra` moves to
`confirmando` only with confirmed products; and (from any non-`pagando`
stage) the stage becomes `pagando` exactly when the executed tool was
`payment` and it succeeded. -/
theorem c7_update_state_spec (cs : CommercialState) (v : VendorOutput)
    (tool : Option String) (ok : Bool) (now : String) :
    (update_state_core cs (some v) tool ok now).intencion_actual = some v.intencion ∧
    (update_state_core cs (some v) tool ok now).ultima_actualizacion = some now ∧
    (¬ (tool = some "payment" ∧ ok = true) →
      ((v.intencion = .consulta_producto →
          (update_state_core cs (some v) tool ok now).etapa_comercial =
            (if cs.etapa_comercial = .nuevo then .explorando else cs.etapa_comercial)) ∧
        (v.intencion = .intencion_compra →
          (update_state_core cs (some v) tool ok now).etapa_comercial = .interesado) ∧
        (v.intencion = .confirmacion_compra →
          (update_state_core cs (some v) tool ok now).etapa_comercial =
            (if cs.productos_confirmados.isEmpty then cs.etapa_comercial
             else .confirmando)))) ∧
    ((tool = some "payment" ∧ ok = true) →
      (update_state_core cs (some v) tool ok now).etapa_comercial = .pagando) ∧
    (cs.etapa_comercial ≠ .pagando →
      ((update_state_core cs (some v) tool ok now).etapa_comercial = .pagando ↔
        (tool = some "payment" ∧ ok = true))) := by
  have hb : ¬ (tool = some "payment" ∧ ok = true) →
      (decide (tool = some "payment") && ok) = false := by
    intro h
    by_cases h1 : tool = some "payment" <;> by_cases h2 : ok = true <;> simp_all
  refine ⟨?_, ?_, ?_, ?_, ?_⟩
  · simp only [update_state_core]
    repeat' split
    all_goals rfl
  · simp only [update_state_core]
  · intro hnp
    refine ⟨?_, ?_, ?_⟩ <;> intro hint <;>
      simp only [update_state_core, hint, hb hnp] <;>
      repeat' split <;> simp_all
  · rintro ⟨h1, h2⟩
    subst h1
    subst h2
    simp [update_state_core]
  · intro hne
    constructor
    · intro hres
      by_contra hnp
      have hb2 := hb hnp
      revert hres
      simp only [update_state_core, hb2]
      cases v.intencion <;> simp_all <;> repeat' split <;> simp_all
    · rintro ⟨h1, h2⟩
      subst h1
      subst h2
      simp [update_state_core]

/-- A plain greeting interpretation (no tool). -/
def voSaludo : VendorOutput := { intencion := .saludo, mensaje := "hola" }

/-- Witness for C7 at a concrete input: a successful `payment` tool moves
a non-`pagando` state to `pagando`. -/
theorem c7_update_state_spec_witness :
    csNoConfirm.etapa_comercial ≠ .pagando ∧
    (update_state_core csNoConfirm (some voSaludo) (some "payment") true "t").etapa_comercial =
      .pagando :=
  ⟨by decide,
    ((c7_update_state_spec csNoConfirm voSaludo (some "payment") true "t").2.2.2.2
      (by decide)).mpr ⟨rfl, rfl⟩⟩

/-! ### C6 -/

/-- C6: in the state-governed pipeline, whatever the persisted stage, the
dynamic rules, the interpretation, the tier-1 validation outcome and the
tool dispatch outcome, `productos_confirmados` is empty both after
`load_state` and at the end of the turn; consequently
`can_execute_tool "payment"` is false at both points, the Decision Stage
never selects the `payment` tool, and the turn can only end in stage
`confirmando` if it already started there (the
`confirmacion_compra → confirmando` transition never fires). -/
theorem c6_confirmed_products_stay_empty (lead_stage : Option String)
    (rules : List String) (oracle : TurnOracle) (ctx : RouterContext)
    (n1 n2 : String) :
    (runTurn lead_stage rules oracle ctx n1 n2).afterLoad.productos_confirmados = [] ∧
    (runTurn lead_stage rules oracle ctx n1 n2).afterUpdate.productos_confirmados = [] ∧
    ((runTurn lead_stage rules oracle ctx n1 n2).afterLoad.can_execute_tool
      "payment").1 = false ∧
    ((runTurn lead_stage rules oracle ctx n1 n2).afterUpdate.can_execute_tool
      "payment").1 = false ∧
    (¬ ((runTurn lead_stage rules oracle ctx n1 n2).decision.graph_decision =
          "execute_tool" ∧
        actionTool (runTurn lead_stage rules oracle ctx n1 n2).decision.vendor_action =
          some "payment")) ∧
    ((runTurn lead_stage rules oracle ctx n1 n2).afterUpdate.etapa_comercial =
        .confirmando →
      (runTurn lead_stage rules oracle ctx n1 n2).afterLoad.etapa_comercial =
        .confirmando) := by
  simp only [runTurn]
  split
  · refine ⟨rfl, ?_, ?_, ?_, ?_, ?_⟩
    · rw [update_state_preserves_confirmados]
      rfl
    · exact can_execute_payment_of_no_confirmados _ rfl
    · apply can_execute_payment_of_no_confirmados
      rw [update_state_preserves_confirmados]
      rfl
    · exact decide_action_no_payment_of_no_confirmados _ _ _ rfl
    · intro hc
      exact update_state_confirmando_source _ _ _ _ _ rfl hc
  · rename_i hnd
    refine ⟨rfl, rfl, ?_, ?_, ?_, ?_⟩
    · exact can_execute_payment_of_no_confirmados _ rfl
    · exact can_execute_payment_of_no_confirmados _ rfl
    · rintro ⟨hd, _⟩
      exact hnd hd
    · intro hc
      exact hc

/-- A benign validation oracle and dispatch outcome. -/
def oracleRespond : TurnOracle :=
  { vendor_output := voSaludo,
    tier1 := .parsed { estado_valido := true },
    dispatch := { success := true, error := none, text := "ok" } }

/-- Witness for C6 at a concrete turn that starts in `confirmando`: the
stage survives the turn, and the implication of the theorem is exercised
with its hypothesis discharged. -/
theorem c6_confirmed_products_stay_empty_witness :
    (runTurn (some "confirmando") [] oracleRespond { custom_tools := [] }
      "n1" "n2").afterUpdate.etapa_comercial = .confirmando ∧
    (runTurn (some "confirmando") [] oracleRespond { custom_tools := [] }
      "n1" "n2").afterLoad.etapa_comercial = .confirmando ∧
    ((runTurn (some "confirmando") [] oracleRespond { custom_tools := [] }
      "n1" "n2").afterLoad.can_execute_tool "payment").1 = false :=
  ⟨by decide,
    (c6_confirmed_products_stay_empty (some "confirmando") [] oracleRespond
      { custom_tools := [] } "n1" "n2").2.2.2.2.2 (by decide),
    (c6_confirmed_products_stay_empty (some "confirmando") [] oracleRespond
      { custom_tools := [] } "n1" "n2").2.2.1⟩

/-! ### C10 -/

/-- Reduction of the token scan when no `{{` is ahead: emit the character
and advance one. -/
theorem tokenizeAux_step_adv (fuel : Nat) (c : Char) (rest : List Char)
    (hm : ¬ (c = '{' ∧ rest.head? = some '{')) :
    tokenizeAux (fuel + 1) (c :: rest) = .ch c :: tokenizeAux fuel rest := by
  simp only [tokenizeAux, if_neg hm]

/-- Reduction of the token scan at a `{{`. -/
theorem tokenizeAux_step_brace (fuel : Nat) (rest2 : List Char) :
    tokenizeAux (fuel + 1) ('{' :: '{' :: rest2) =
      (if (rest2.takeWhile isWordChar).isEmpty then
        .ch '{' :: tokenizeAux fuel ('{' :: rest2)
      else if (rest2.dropWhile isWordChar).take 2 = ['}', '}'] then
        .ph (rest2.takeWhile isWordChar) ::
          tokenizeAux fuel ((rest2.dropWhile isWordChar).drop 2)
      else .ch '{' :: tokenizeAux fuel ('{' :: rest2)) := by
  simp [tokenizeAux]

/-- Reduction of the substitution scan when no `{{` is ahead. -/
theorem scanSubAux_step_adv (params : Params) (fuel : Nat) (c : Char)
    (rest : List Char) (hm : ¬ (c = '{' ∧ rest.head? = some '{')) :
    scanSubAux params (fuel + 1) (c :: rest) = c :: scanSubAux params fuel rest := by
  simp only [scanSubAux, if_neg hm]

/-- Reduction of the substitution scan at a `{{`. -/
theorem scanSubAux_step_brace (params : Params) (fuel : Nat) (rest2 : List Char) :
    scanSubAux params (fuel + 1) ('{' :: '{' :: rest2) =
      (if (rest2.takeWhile isWordChar).isEmpty then
        '{' :: scanSubAux params fuel ('{' :: rest2)
      else if (rest2.dropWhile isWordChar).take 2 = ['}', '}'] then
        placeholderReplacement params (rest2.takeWhile isWordChar) ++
          scanSubAux params fuel ((rest2.dropWhile isWordChar).drop 2)
      else '{' :: scanSubAux params fuel ('{' :: rest2)) := by
  simp [scanSubAux]

/-- Tokenization decomposes the input: rendering the tokens back
reassembles the original character list. -/
theorem tokenizeAux_render (fuel : Nat) :
    ∀ l : List Char, l.length ≤ fuel →
      ((tokenizeAux fuel l).map renderTok).flatten = l := by
  induction fuel with
  | zero =>
      intro l h
      have hnil : l = [] := List.eq_nil_of_length_eq_zero (Nat.le_zero.mp h)
      subst hnil
      rfl
  | succ fuel ih =>
      intro l h
      cases l with
      | nil => rfl
      | cons c rest =>
          by_cases hm : c = '{' ∧ rest.head? = some '{'
          · obtain ⟨hc, hh⟩ := hm
            subst hc
            cases rest with
            | nil => simp at hh
            | cons c2 rest2 =>
                have hc2 : c2 = '{' := by simpa using hh
                subst hc2
                have hlen2 : rest2.length + 1 ≤ fuel := by
                  simp at h
                  omega
                rw [tokenizeAux_step_brace]
                by_cases hw : (rest2.takeWhile isWordChar).isEmpty
                · rw [if_pos hw]
                  simp only [List.map_cons, List.flatten_cons]
                  rw [ih ('{' :: rest2) (by simpa using hlen2)]
                  rfl
                · rw [if_neg hw]
                  by_cases ht : ((rest2.dropWhile isWordChar).take 2 = ['}', '}'])
                  · have hd1 : (rest2.dropWhile isWordChar).length ≤ rest2.length :=
                      dropWhileLenLe _ _
                    have hlen3 : ((rest2.dropWhile isWordChar).drop 2).length ≤ fuel := by
                      simp
                      omega
                    rw [if_pos ht]
                    simp only [List.map_cons, List.flatten_cons]
                    rw [ih _ hlen3]
                    have hsplit : rest2 =
                        rest2.takeWhile isWordChar ++ rest2.dropWhile isWordChar :=
                      (List.takeWhile_append_dropWhile (p := isWordChar) (l := rest2)).symm
                    have hd2 : rest2.dropWhile isWordChar =
                        ['}', '}'] ++ (rest2.dropWhile isWordChar).drop 2 := by
                      conv_lhs =>
                        rw [← List.take_append_drop 2 (rest2.dropWhile isWordChar)]
                      rw [ht]
                    conv_rhs => rw [hsplit, hd2]
                    simp [renderTok]
                  · rw [if_neg ht]
                    simp only [List.map_cons, List.flatten_cons]
                    rw [ih ('{' :: rest2) (by simpa using hlen2)]
                    rfl
          · rw [tokenizeAux_step_adv fuel c rest hm]
            simp only [List.map_cons, List.flatten_cons]
            rw [ih rest (by simp at h; omega)]
            rfl

/-- The `re.sub` scan substitutes exactly token-by-token on the
decomposition. -/
theorem scanSubAux_tokens (params : Params) (fuel : Nat) :
    ∀ l : List Char, l.length ≤ fuel →
      scanSubAux params fuel l =
        ((tokenizeAux fuel l).map (substTok params)).flatten := by
  induction fuel with
  | zero =>
      intro l h
      have hnil : l = [] := List.eq_nil_of_length_eq_zero (Nat.le_zero.mp h)
      subst hnil
      rfl
  | succ fuel ih =>
      intro l h
      cases l with
      | nil => rfl
      | cons c rest =>
          by_cases hm : c = '{' ∧ rest.head? = some '{'
          · obtain ⟨hc, hh⟩ := hm
            subst hc
            cases rest with
            | nil => simp at hh
            | cons c2 rest2 =>
                have hc2 : c2 = '{' := by simpa using hh
                subst hc2
                have hlen2 : rest2.length + 1 ≤ fuel := by
                  simp at h
                  omega
                rw [scanSubAux_step_brace, tokenizeAux_step_brace]
                by_cases hw : (rest2.takeWhile isWordChar).isEmpty
                · rw [if_pos hw, if_pos hw]
                  simp only [List.map_cons, List.flatten_cons]
                  rw [ih ('{' :: rest2) (by simpa using hlen2)]
                  rfl
                · rw [if_neg hw, if_neg hw]
                  by_cases ht : ((rest2.dropWhile isWordChar).take 2 = ['}', '}'])
                  · have hd1 : (rest2.dropWhile isWordChar).length ≤ rest2.length :=
                      dropWhileLenLe _ _
                    have hlen3 : ((rest2.dropWhile isWordChar).drop 2).length ≤ fuel := by
                      simp
                      omega
                    rw [if_pos ht, if_pos ht]
                    simp only [List.map_cons, List.flatten_cons]
                    rw [ih _ hlen3]
                    rfl
                  · rw [if_neg ht, if_neg ht]
                    simp only [List.map_cons, List.flatten_cons]
                    rw [ih ('{' :: rest2) (by simpa using hlen2)]
                    rfl
          · rw [scanSubAux_step_adv params fuel c rest hm,
              tokenizeAux_step_adv fuel c rest hm]
            simp only [List.map_cons, List.flatten_cons]
            rw [ih rest (by simp at h; omega)]
            rfl

/-- C10 (counterexample): the claim says every `{{name}}` placeholder
whose name is bound in the mapping is substituted.  `"x"` IS bound in
`[("x", None)]`, and `str(None)` would be `"None"`, yet the placeholder is
left untouched: the `replace_match` callback keeps `match.group(0)` for a
`None` value. -/
theorem c10_none_bound_untouched_counterexample :
    (List.lookup "x" [("x", PyVal.vNone)]).isSome = true ∧
    interpolate_params (.str "\x7b\x7bx\x7d\x7d") [("x", PyVal.vNone)] = .str "\x7b\x7bx\x7d\x7d" ∧
    PyVal.toPyStr PyVal.vNone = "None" ∧
    substPlaceholders [("x", PyVal.vNone)] "\x7b\x7bx\x7d\x7d" ≠ "None" := by
  refine ⟨by decide, ?_, by decide, by decide⟩
  simp only [interpolate_params]
  rw [show substPlaceholders [("x", PyVal.vNone)] "\x7b\x7bx\x7d\x7d" = "\x7b\x7bx\x7d\x7d" from by decide]

/-- C10 (amended): `interpolate_params` never raises: on a string it
substitutes exactly token-by-token over the `re.sub` decomposition of the
input (which reassembles to the original string), where a placeholder
token bound to a non-`None` value becomes `str(value)` and a placeholder
that is unbound — or bound to `None` — is left untouched as its original
`\x7b\x7bname\x7d\x7d` text; it recurses through dict values and list
items and returns non-string leaves unchanged. -/
theorem c10_interpolation_tokenwise (params : Params) :
    (∀ s : String, substPlaceholders params s =
      String.mk (((tokenize s.data).map (substTok params)).flatten)) ∧
    (∀ l : List Char, ((tokenize l).map renderTok).flatten = l) ∧
    (∀ w : List Char,
      (params.lookup (String.mk w) = none ∨
        params.lookup (String.mk w) = some PyVal.vNone) →
      substTok params (.ph w) = renderTok (.ph w)) ∧
    (∀ (w : List Char) (v : PyVal), params.lookup (String.mk w) = some v →
      v ≠ PyVal.vNone → substTok params (.ph w) = (PyVal.toPyStr v).data) ∧
    (∀ k, interpolate_params (.other k) params = .other k) ∧
    (∀ entries, interpolate_params (.dict entries) params =
      .dict (entries.map (fun kv => (kv.1, interpolate_params kv.2 params)))) ∧
    (∀ items, interpolate_params (.list items) params =
      .list (items.map (fun it => interpolate_params it params))) ∧
    (∀ s, interpolate_params (.str s) params = .str (substPlaceholders params s)) := by
  refine ⟨?_, ?_, ?_, ?_, ?_, ?_, ?_, ?_⟩
  · intro s
    unfold substPlaceholders scanSub tokenize
    rw [scanSubAux_tokens params s.data.length s.data le_rfl]
  · intro l
    exact tokenizeAux_render l.length l le_rfl
  · intro w hw
    rcases hw with hw | hw <;>
      simp [substTok, renderTok, placeholderReplacement, hw]
  · intro w v hv hne
    simp [substTok, placeholderReplacement, hv, hne]
  · intro k
    simp [interpolate_params]
  · intro entries
    simp only [interpolate_params]
    congr 1
    exact List.attach_map_val entries (fun kv => (kv.1, interpolate_params kv.2 params))
  · intro items
    simp only [interpolate_params]
    congr 1
    exact List.attach_map_val items (fun it => interpolate_params it params)
  · intro s
    simp [interpolate_params]

/-- Witness for C10 (amended) at concrete inputs: a bound non-`None`
placeholder is substituted with `str(value)`, an unbound one is left
untouched, and substitution on a concrete string is tokenwise. -/
theorem c10_interpolation_tokenwise_witness :
    substTok [("x", PyVal.vInt 7)] (.ph ['x']) = (PyVal.toPyStr (PyVal.vInt 7)).data ∧
    substTok [("x", PyVal.vInt 7)] (.ph ['y']) = renderTok (.ph ['y']) ∧
    substPlaceholders [("x", PyVal.vInt 7)] "a \x7b\x7bx\x7d\x7d!" =
      String.mk (((tokenize "a \x7b\x7bx\x7d\x7d!".data).map
        (substTok [("x", PyVal.vInt 7)])).flatten) :=
  ⟨(c10_interpolation_tokenwise [("x", PyVal.vInt 7)]).2.2.2.1 ['x'] (PyVal.vInt 7)
      (by decide) (by decide),
    (c10_interpolation_tokenwise [("x", PyVal.vInt 7)]).2.2.1 ['y'] (Or.inl (by decide)),
    (c10_interpolation_tokenwise [("x", PyVal.vInt 7)]).1 "a \x7b\x7bx\x7d\x7d!"⟩

end AgentV2
